import Mathlib

/-!
Shallow embedding of `src-tauri/src/main.rs` of the PhDPlanner repository
(a Tauri desktop backend), together with theorems settling the frozen
claims about that code.

Modelling conventions:
* Each `#[tauri::command]` handler becomes a Lean function.  Platform
  conditional compilation (`#[cfg(target_os = ...)]`) becomes an explicit
  `OS` argument.
* Spawning a child process (`std::process::Command::new(p).args(a).spawn()`)
  is modelled by the `Spawn` value the handler constructs: the claims about
  these handlers only constrain the program and argument vector handed to
  the OS, and the handler's `Result` mirrors the spawn outcome of exactly
  that invocation.
* `std::fs` is modelled by an explicit state `FS`; `fs::metadata` by an
  oracle `stat : String → Except String Metadata` (the OS decides both the
  outcome and the error text, which `e.to_string()` turns into a string).
* The HTTP client is modelled by an oracle from the request to a transport
  outcome; the handler additionally returns the list of requests it issued.
-/

namespace PhD

/-- The three operating systems distinguished by `#[cfg(target_os = ...)]`
in `main.rs`. -/
inductive OS
  | macos
  | windows
  | linux
deriving DecidableEq, Repr

/-- A child process invocation as built by
`std::process::Command::new(program)` followed by `.arg`/`.args` calls:
the program name and its argument vector. -/
structure Spawn where
  program : String
  args : List String
deriving DecidableEq, Repr

/-- `open_url` (main.rs lines 1–27): the process each platform branch
spawns.  macOS: `open <url>`; Windows: `cmd /C start "" <url>`;
Linux: `xdg-open <url>`. -/
def open_url (os : OS) (url : String) : Spawn :=
  match os with
  | OS.macos => { program := "open", args := [url] }
  | OS.windows => { program := "cmd", args := ["/C", "start", "", url] }
  | OS.linux => { program := "xdg-open", args := [url] }

/-- `open_folder` (main.rs lines 29–55): the process each platform branch
spawns.  macOS: `open <path>`; Windows: `explorer <path>`;
Linux: `xdg-open <path>`. -/
def open_folder (os : OS) (path : String) : Spawn :=
  match os with
  | OS.macos => { program := "open", args := [path] }
  | OS.windows => { program := "explorer", args := [path] }
  | OS.linux => { program := "xdg-open", args := [path] }

/-- `reveal_in_finder` (main.rs lines 57–85): the process each platform
branch spawns.  macOS: `open -R <path>`; Windows: `explorer /select, <path>`;
Linux: `xdg-open <path>` (no reveal flag). -/
def reveal_in_finder (os : OS) (path : String) : Spawn :=
  match os with
  | OS.macos => { program := "open", args := ["-R", path] }
  | OS.windows => { program := "explorer", args := ["/select,", path] }
  | OS.linux => { program := "xdg-open", args := [path] }

/-- The result of a successful `std::fs::metadata` call; the handler only
inspects `meta.is_dir()`. -/
structure Metadata where
  is_dir : Bool
deriving DecidableEq, Repr

/-- `path_kind` (main.rs lines 98–105), parametrised by the OS metadata
oracle `stat` (the behaviour of `std::fs::metadata`, with `e.to_string()`
already applied to the error). -/
def path_kind (stat : String → Except String Metadata) (path : String) :
    Except String String :=
  match stat path with
  | Except.ok meta => Except.ok (if meta.is_dir then "folder" else "file")
  | Except.error e => Except.error e

/-- Model of the text-file state of `std::fs` seen by `save_text_file` and
`read_text_file`: `files p` is the text content of the file at path `p`
(`none` if absent), and `write_err p` is `some e` when the OS refuses a
write at `p` (permissions, missing parent directory, disk full), with `e`
the error text `e.to_string()` would produce. -/
structure FS where
  files : String → Option String
  write_err : String → Option String

/-- Modelled OS API `std::fs::write(path, contents)`: unconditionally
replaces the file content at `path` (creating the file if absent), or
fails with the OS error text. -/
def fs_write (fs : FS) (path contents : String) : Except String FS :=
  match fs.write_err path with
  | some e => Except.error e
  | none =>
      Except.ok { fs with
        files := fun q => if q = path then some contents else fs.files q }

/-- Modelled OS API `std::fs::read_to_string(path)`: returns the stored
text, or fails with the OS error text when the file is absent.  (Content
written through this model is a Lean `String`, hence valid Unicode, so the
invalid-encoding failure mode of `read_to_string` cannot arise here.) -/
def fs_read_to_string (fs : FS) (path : String) : Except String String :=
  match fs.files path with
  | some c => Except.ok c
  | none => Except.error "No such file or directory (os error 2)"

/-- `save_text_file` (main.rs lines 118–122):
`fs::write(path, contents).map_err(|e| e.to_string())`. -/
def save_text_file (fs : FS) (path contents : String) : Except String FS :=
  fs_write fs path contents

/-- `read_text_file` (main.rs lines 124–128):
`std::fs::read_to_string(path).map_err(|e| e.to_string())`. -/
def read_text_file (fs : FS) (path : String) : Except String String :=
  fs_read_to_string fs path

/-- A generic JSON value, the shape `serde_json::Value` parses into; the
handler never inspects it. -/
inductive Json
  | null
  | bool (b : Bool)
  | num (n : Int)
  | str (s : String)
  | arr (elems : List Json)
  | obj (fields : List (String × Json))

/-- A form-encoded HTTP POST request as built by
`reqwest::Client::new().post(url).form(&body)`. -/
structure HttpPost where
  url : String
  form : List (String × String)
deriving DecidableEq, Repr

/-- An HTTP response: its status code and the outcome of parsing its body
as JSON (`resp.json::<serde_json::Value>()`, with `e.to_string()` already
applied to the parse error). -/
structure HttpResponse where
  status : Nat
  jsonBody : Except String Json

/-- The hard-coded scope string of `graph_device_code_start`
(main.rs line 109). -/
def graph_scopes : String :=
  "offline_access openid profile email https://graph.microsoft.com/Calendars.ReadWrite https://graph.microsoft.com/User.Read"

/-- The individual scope names of `graph_scopes`, as a list. -/
def graph_scope_tokens : List String :=
  ["offline_access", "openid", "profile", "email",
   "https://graph.microsoft.com/Calendars.ReadWrite",
   "https://graph.microsoft.com/User.Read"]

/-- The fixed identity-provider endpoint of `graph_device_code_start`
(main.rs line 112). -/
def devicecode_url : String :=
  "https://login.microsoftonline.com/organizations/oauth2/v2.0/devicecode"

/-- The single request `graph_device_code_start` builds (main.rs
lines 110–113): a form-encoded POST to `devicecode_url` with fields
`client_id` and `scope`. -/
def graph_device_code_request (client_id : String) : HttpPost :=
  { url := devicecode_url
    form := [("client_id", client_id), ("scope", graph_scopes)] }

/-- `graph_device_code_start` (main.rs lines 107–117), parametrised by
the transport oracle `http` (what `send()` does: a transport error with
its text, or a response).  Returns the list of requests the handler
issued together with its `Result`: the transport error, the JSON parse
error, or the parsed value returned unmodified. -/
def graph_device_code_start
    (http : HttpPost → Except String HttpResponse) (client_id : String) :
    List HttpPost × Except String Json :=
  let req := graph_device_code_request client_id
  ([req],
    match http req with
    | Except.error e => Except.error e
    | Except.ok resp => resp.jsonBody)

/-- The command handlers registered with the Tauri runtime by
`tauri::generate_handler![...]` in `main` (main.rs line 93), in source
order. -/
def registered_commands : List String :=
  ["open_url", "open_folder", "reveal_in_finder", "path_kind",
   "save_text_file", "read_text_file"]

/-- The functions of main.rs carrying the `#[tauri::command]` attribute,
in source order. -/
def command_annotated : List String :=
  ["open_url", "open_folder", "reveal_in_finder", "path_kind",
   "graph_device_code_start", "save_text_file", "read_text_file"]

/-- The invocation names the spec lists in its external-interface section
(section 6) as the command surface exposed to the front-end. -/
def spec_interface_commands : List String :=
  ["open_url", "open_folder", "reveal_in_finder", "path_kind",
   "save_text_file", "read_text_file", "graph_device_code_start"]

/-- The environment `graph_tokens_path` consults: the outcome of
`app.path().app_config_dir()` (a fallible Tauri API), the system temp
directory `std::env::temp_dir()`, and the outcome of
`std::fs::create_dir_all` on a directory.  Paths are component lists;
`PathBuf::join` with a single file name appends a component. -/
structure AppEnv where
  app_config_dir : Except String (List String)
  temp_dir : List String
  create_dir_all : List String → Except String Unit

/-- `graph_tokens_path` (main.rs lines 139–143): the config directory
(falling back to the temp directory), a best-effort `create_dir_all`
whose result is discarded (`let _ = ...`), then `dir.join("graph_tokens.json")`. -/
def graph_tokens_path (env : AppEnv) : List String :=
  let dir := match env.app_config_dir with
    | Except.ok d => d
    | Except.error _ => env.temp_dir
  let _ := env.create_dir_all dir
  dir ++ ["graph_tokens.json"]

/-- Helper: a successful `fs_write` leaves exactly the written content at
the written path and everything else unchanged. -/
theorem fs_write_ok_files (fs fs2 : FS) (p c : String)
    (h : fs_write fs p c = Except.ok fs2) :
    fs2.files = fun q => if q = p then some c else fs.files q := by
  unfold fs_write at h
  cases hw : fs.write_err p with
  | some e => rw [hw] at h; exact absurd h (by simp)
  | none =>
      rw [hw] at h
      injection h with h1
      rw [← h1]

/-- Claim C1 (code bug): the command `graph_device_code_start` is listed
in the spec's external interface and carries the command attribute in the
source, yet it is absent from the handler table `main` registers, which
names only six commands.  An invocation of that name therefore finds no
handler. -/
theorem graph_device_code_start_not_registered :
    "graph_device_code_start" ∈ spec_interface_commands ∧
    "graph_device_code_start" ∈ command_annotated ∧
    "graph_device_code_start" ∉ registered_commands ∧
    registered_commands.length = 6 := by
  refine ⟨by decide, by decide, by decide, by decide⟩

/-- Claim C2: if `save_text_file fs p T` succeeds with post-state `fs2`,
then `read_text_file fs2 p` succeeds and returns exactly `T` — for every
path and every text, including the empty string and multi-byte text. -/
theorem save_then_read_roundtrip (fs fs2 : FS) (p T : String)
    (h : save_text_file fs p T = Except.ok fs2) :
    read_text_file fs2 p = Except.ok T := by
  have hf := fs_write_ok_files fs fs2 p T h
  simp [read_text_file, fs_read_to_string, hf]

/-- Empty filesystem with no write failures. -/
def fs0 : FS := { files := fun _ => none, write_err := fun _ => none }

/-- `fs0` after writing the multi-byte text to `notes.txt`. -/
def fs1 : FS :=
  { files := fun q => if q = "notes.txt" then some "héllo ✓" else none
    write_err := fun _ => none }

/-- Witness for claim C2 at a concrete multi-byte text. -/
theorem save_then_read_roundtrip_witness :
    save_text_file fs0 "notes.txt" "héllo ✓" = Except.ok fs1 ∧
    read_text_file fs1 "notes.txt" = Except.ok "héllo ✓" :=
  ⟨rfl, save_then_read_roundtrip fs0 fs1 "notes.txt" "héllo ✓" rfl⟩

/-- Claim C3: `path_kind` returns "folder" exactly when the metadata
query succeeds and reports a directory, "file" exactly when it succeeds
otherwise, propagates the metadata error text exactly when the query
fails, and produces no success value other than "folder" or "file". -/
theorem path_kind_cases (stat : String → Except String Metadata) (p : String) :
    (path_kind stat p = Except.ok "folder" ↔
        ∃ m, stat p = Except.ok m ∧ m.is_dir = true) ∧
    (path_kind stat p = Except.ok "file" ↔
        ∃ m, stat p = Except.ok m ∧ m.is_dir = false) ∧
    (∀ e, path_kind stat p = Except.error e ↔ stat p = Except.error e) ∧
    (∀ s, path_kind stat p = Except.ok s → s = "folder" ∨ s = "file") := by
  cases hs : stat p with
  | ok m =>
      obtain ⟨b⟩ := m
      cases b <;> simp [path_kind, hs]
  | error e => simp [path_kind, hs]

/-- A concrete metadata oracle: a directory, a regular file, everything
else missing. -/
def stat0 : String → Except String Metadata :=
  fun q =>
    if q = "/home" then Except.ok { is_dir := true }
    else if q = "/etc/hosts" then Except.ok { is_dir := false }
    else Except.error "No such file or directory (os error 2)"

/-- Witness for claim C3 at concrete paths of all three kinds. -/
theorem path_kind_cases_witness :
    path_kind stat0 "/home" = Except.ok "folder" ∧
    path_kind stat0 "/etc/hosts" = Except.ok "file" ∧
    path_kind stat0 "/nope" = Except.error "No such file or directory (os error 2)" :=
  ⟨(path_kind_cases stat0 "/home").1.mpr ⟨{ is_dir := true }, rfl, rfl⟩,
   (path_kind_cases stat0 "/etc/hosts").2.1.mpr ⟨{ is_dir := false }, rfl, rfl⟩,
   ((path_kind_cases stat0 "/nope").2.2.1
     "No such file or directory (os error 2)").mpr rfl⟩

/-- The scope names the claim says the scope list consists of exactly,
modelled from the claim's wording: offline access, profile, calendar
read/write, and user read. -/
def claimed_scope_names : List String :=
  ["offline_access", "profile",
   "https://graph.microsoft.com/Calendars.ReadWrite",
   "https://graph.microsoft.com/User.Read"]

/-- Claim C4, counterexample: the hard-coded scope string also names
`openid` and `email`, which are not among the four scope names the claim
lists, so the scope list is not exactly those four. -/
theorem graph_scopes_has_openid_and_email :
    graph_scopes = String.intercalate " " graph_scope_tokens ∧
    "openid" ∈ graph_scope_tokens ∧ "openid" ∉ claimed_scope_names ∧
    "email" ∈ graph_scope_tokens ∧ "email" ∉ claimed_scope_names := by
  refine ⟨by decide, by decide, by decide, by decide, by decide⟩

/-- Claim C4 (amended): for every client id, `graph_device_code_start`
issues exactly one form-encoded POST, to the fixed devicecode endpoint,
whose form consists of the fields `client_id` and `scope`, where `scope`
is the fixed hard-coded list naming offline access, openid, profile,
email, calendar read/write, and user read. -/
theorem graph_device_code_start_single_post
    (http : HttpPost → Except String HttpResponse) (cid : String) :
    (graph_device_code_start http cid).1 =
      [{ url := devicecode_url
         form := [("client_id", cid), ("scope", graph_scopes)] }] ∧
    graph_scopes = String.intercalate " " graph_scope_tokens :=
  ⟨rfl, by decide⟩

/-- Claim C5: `graph_device_code_start` fails exactly when the transport
fails or the body fails to parse as JSON, and any response whose body is
valid JSON — whatever its status code — is returned unmodified as
success. -/
theorem graph_device_code_start_result
    (http : HttpPost → Except String HttpResponse) (cid : String) :
    (∀ e, (graph_device_code_start http cid).2 = Except.error e ↔
        http (graph_device_code_request cid) = Except.error e ∨
        ∃ r, http (graph_device_code_request cid) = Except.ok r ∧
          r.jsonBody = Except.error e) ∧
    (∀ r j, http (graph_device_code_request cid) = Except.ok r →
        r.jsonBody = Except.ok j →
        (graph_device_code_start http cid).2 = Except.ok j) := by
  cases hh : http (graph_device_code_request cid) with
  | error e => simp [graph_device_code_start, hh]
  | ok r =>
      cases hb : r.jsonBody with
      | error e =>
          simp [graph_device_code_start, hh, hb]
          intro r1 j hr
          subst hr
          simp [hb]
      | ok j =>
          simp [graph_device_code_start, hh, hb]
          intro r1 j1 hr hj
          subst hr
          rw [hb] at hj
          exact Except.ok.inj hj

/-- A transport oracle answering every request with a 404 response whose
body is valid JSON. -/
def http404 : HttpPost → Except String HttpResponse :=
  fun _ => Except.ok
    { status := 404
      jsonBody := Except.ok (Json.obj [("error", Json.str "invalid_client")]) }

/-- Witness for claim C5: a non-2xx response with a valid JSON body is
returned as success. -/
theorem graph_device_code_start_result_witness :
    (graph_device_code_start http404 "my-client").2 =
      Except.ok (Json.obj [("error", Json.str "invalid_client")]) :=
  (graph_device_code_start_result http404 "my-client").2
    { status := 404
      jsonBody := Except.ok (Json.obj [("error", Json.str "invalid_client")]) }
    (Json.obj [("error", Json.str "invalid_client")]) rfl rfl

/-- Claim C6: on macOS and Windows, `reveal_in_finder` spawns the file
manager launcher with the platform flag (`-R`, resp. `/select,`)
prepended to the target path. -/
theorem reveal_in_finder_flag_prepended (p : String) :
    reveal_in_finder OS.macos p = { program := "open", args := ["-R", p] } ∧
    reveal_in_finder OS.windows p =
      { program := "explorer", args := ["/select,", p] } :=
  ⟨rfl, rfl⟩

/-- Claim C7: on Linux, `reveal_in_finder` performs exactly the spawn
`open_folder` performs — same program, same argument list — i.e. it falls
back to opening the path with no reveal semantics. -/
theorem reveal_in_finder_linux_eq_open_folder (p : String) :
    reveal_in_finder OS.linux p = open_folder OS.linux p :=
  rfl

/-- Claim C8: after two successful writes to the same path, the file
contains exactly the second text — the write overwrites rather than
appends, and the claim quantifies over every pre-state, including one
where the file is absent (creation). -/
theorem save_overwrites (fs fsA2 fsB2 : FS) (p T1 T2 : String)
    (_h1 : save_text_file fs p T1 = Except.ok fsA2)
    (h2 : save_text_file fsA2 p T2 = Except.ok fsB2) :
    read_text_file fsB2 p = Except.ok T2 ∧ fsB2.files p = some T2 := by
  have hf2 := fs_write_ok_files fsA2 fsB2 p T2 h2
  constructor
  · simp [read_text_file, fs_read_to_string, hf2]
  · simp [hf2]

/-- `fs0` after writing "first" to `a.txt`. -/
def fsA : FS :=
  { files := fun q => if q = "a.txt" then some "first" else none
    write_err := fun _ => none }

/-- `fsA` after writing "second" to `a.txt`. -/
def fsB : FS :=
  { files := fun q =>
      if q = "a.txt" then some "second"
      else if q = "a.txt" then some "first" else none
    write_err := fun _ => none }

/-- Witness for claim C8 at concrete texts. -/
theorem save_overwrites_witness :
    save_text_file fs0 "a.txt" "first" = Except.ok fsA ∧
    save_text_file fsA "a.txt" "second" = Except.ok fsB ∧
    read_text_file fsB "a.txt" = Except.ok "second" :=
  ⟨rfl, rfl, (save_overwrites fs0 fsA fsB "a.txt" "first" "second" rfl rfl).1⟩

/-- Claim C9: `graph_tokens_path` is total (it never fails), returns the
config directory — or the temp directory when the config directory is
unavailable — joined with the fixed filename `graph_tokens.json`, and its
result does not depend on the outcome of the best-effort directory
creation. -/
theorem graph_tokens_path_total (env env2 : AppEnv)
    (hc : env.app_config_dir = env2.app_config_dir)
    (ht : env.temp_dir = env2.temp_dir) :
    graph_tokens_path env =
      (match env.app_config_dir with
        | Except.ok d => d
        | Except.error _ => env.temp_dir) ++ ["graph_tokens.json"] ∧
    graph_tokens_path env = graph_tokens_path env2 := by
  constructor
  · rfl
  · simp [graph_tokens_path, hc, ht]

/-- An environment whose directory creation succeeds. -/
def env_ok : AppEnv :=
  { app_config_dir := Except.ok ["home", "user", ".config", "phdplanner"]
    temp_dir := ["tmp"]
    create_dir_all := fun _ => Except.ok () }

/-- The same environment except that directory creation fails. -/
def env_mkdir_fails : AppEnv :=
  { app_config_dir := Except.ok ["home", "user", ".config", "phdplanner"]
    temp_dir := ["tmp"]
    create_dir_all := fun _ => Except.error "Permission denied (os error 13)" }

/-- Witness for claim C9: concrete environments differing only in the
directory-creation outcome yield the same path. -/
theorem graph_tokens_path_total_witness :
    graph_tokens_path env_ok =
      ["home", "user", ".config", "phdplanner", "graph_tokens.json"] ∧
    graph_tokens_path env_ok = graph_tokens_path env_mkdir_fails := by
  have h := graph_tokens_path_total env_ok env_mkdir_fails rfl rfl
  exact ⟨h.1, h.2⟩

/-- Claim C10: on Windows, `open_url` spawns `cmd` with the argument
vector `/C start "" <url>`: the URL is handed to the Windows command
shell rather than to a dedicated launcher binary. -/
theorem open_url_windows_uses_cmd (url : String) :
    open_url OS.windows url =
      { program := "cmd", args := ["/C", "start", "", url] } :=
  rfl

end PhD
